import Mathlib

/- Verification of the Miranda backend (src/backend/main.py, the clean REST
variant, which subsumes the behaviours the claims reference; the older
src/miranda/backend/main.py variant differs only where noted in comments).

The Python `SimpleStorage` object together with the persisted JSON document
`./projects/projects.json` is modelled as the `Sys` structure below: `storage`
is the in-memory state, `disk` is the JSON document.  Python dicts (insertion
ordered) are modelled as association lists; `dict[k] = v` is `dictInsert`,
`dict.get(k)` is `dictGet?`, `dict.get(k, d)` is `dictGetD`, `k in dict` is
`dictHasKey`.  Request bodies arrive as dicts with `.get(key, default)`
access, modelled as `Option` parameters read with `Option.getD`.  Raising
`HTTPException(code, detail)` is modelled as `Except.error ⟨code, detail⟩`;
FastAPI aborts the handler there, so in this state-passing embedding an error
result carries no successor state, matching the fact that every `raise` in the
handlers happens before any storage mutation.  Uploaded file bodies are
modelled as `String`s; `len(content)` on the raw bytes is `utf8ByteSize`
(uploads are assumed valid UTF-8, which is irrelevant to the size and
extension checks under study).  The environment variable OPENAI_API_KEY is the
boolean `apiKeySet` parameter of the AI endpoints. -/

namespace Miranda

/-- Python dict membership `k in d` for an insertion-ordered dict modelled as
an association list. -/
def dictHasKey (d : List (String × α)) (k : String) : Bool :=
  match d with
  | [] => false
  | kv :: rest => kv.1 == k || dictHasKey rest k

/-- Python `d.get(k)` / `d[k]` lookup. -/
def dictGet? (d : List (String × α)) (k : String) : Option α :=
  match d with
  | [] => none
  | kv :: rest => if kv.1 == k then some kv.2 else dictGet? rest k

/-- Python `d.get(k, dflt)`. -/
def dictGetD (d : List (String × α)) (k : String) (dflt : α) : α :=
  (dictGet? d k).getD dflt

/-- Python `d[k] = v`: update in place if the key exists, else append. -/
def dictInsert (d : List (String × α)) (k : String) (v : α) : List (String × α) :=
  if dictHasKey d k then d.map (fun kv => if kv.1 == k then (k, v) else kv)
  else d ++ [(k, v)]

/-- A project record as built by `SimpleStorage.create_project`
(src/backend/main.py lines 133-155). -/
structure Project where
  id : String
  name : String
  template : String
  description : Option String
  created_at : String
deriving DecidableEq

/-- A brainstorm record as built by `brainstorm_project`
(src/backend/main.py lines 552-560). -/
structure Brainstorm where
  id : String
  project_id : String
  context : String
  focus : String
  tone : String
  ideas : List String
  created_at : String
deriving DecidableEq

/-- An upload record as stored in `storage.uploads` by `upload_to_bucket`
(src/backend/main.py lines 403-411). -/
structure UploadRec where
  id : String
  filename : String
  size : Nat
  project_id : String
  bucket : String
  path : String
deriving DecidableEq

/-- The in-memory fields of `SimpleStorage` (src/backend/main.py lines 92-99).
The `documents` dict is omitted: no code in the file ever reads or writes it. -/
structure Storage where
  projects : List Project
  brainstorms : List (String × Brainstorm)
  uploads : List (String × UploadRec)
  buckets : List (String × List String)
  tables : List (String × List String)
deriving DecidableEq

/-- The persisted JSON document `./projects/projects.json`.  Each field is
`Option`al because `_load_projects` reads every key with
`data.get(key, default)` (lines 112-115); a missing file is modelled as the
all-`none` document, which loads identically. -/
structure ProjectsDoc where
  projects : Option (List Project)
  brainstorms : Option (List (String × Brainstorm))
  buckets : Option (List (String × List String))
  tables : Option (List (String × List String))
deriving DecidableEq

/-- `_save_projects` (lines 119-131): the document written to disk.  Note that
`uploads` is not part of the dumped dict. -/
def saveDoc (st : Storage) : ProjectsDoc :=
  { projects := some st.projects
    brainstorms := some st.brainstorms
    buckets := some st.buckets
    tables := some st.tables }

/-- `__init__` + `_load_projects` (lines 93-117): the storage state after a
(re)start reading the given document.  `uploads` (and `documents`) are
initialised empty and never loaded. -/
def loadStorage (d : ProjectsDoc) : Storage :=
  { projects := d.projects.getD []
    brainstorms := d.brainstorms.getD []
    uploads := []
    buckets := d.buckets.getD []
    tables := d.tables.getD [] }

/-- The full system state: in-memory storage plus the persisted document. -/
structure Sys where
  storage : Storage
  disk : ProjectsDoc
deriving DecidableEq

/-- The document representing a missing `projects.json` file. -/
def emptyDoc : ProjectsDoc := ⟨none, none, none, none⟩

/-- Fresh server start with no persisted file. -/
def Sys.init : Sys := ⟨loadStorage emptyDoc, emptyDoc⟩

/-- A call to `storage._save_projects()`. -/
def Sys.save (s : Sys) : Sys := { s with disk := saveDoc s.storage }

/-- `HTTPException(status_code, detail)`. -/
structure HTTPError where
  status_code : Nat
  detail : String
deriving DecidableEq

instance {ε α : Type} [DecidableEq ε] [DecidableEq α] : DecidableEq (Except ε α) :=
  fun x y =>
    match x, y with
    | .ok a, .ok b =>
      if h : a = b then isTrue (by rw [h]) else isFalse (by simp [h])
    | .error a, .error b =>
      if h : a = b then isTrue (by rw [h]) else isFalse (by simp [h])
    | .ok _, .error _ => isFalse (by simp)
    | .error _, .ok _ => isFalse (by simp)

/-- Python `str.endswith(suffix)`: code-point suffix test.  (Implemented
structurally so that concrete instances evaluate inside the kernel;
`String.endsWith` is definitionally equivalent but defined by well-founded
recursion.) -/
def strEndsWith (s suffix : String) : Bool :=
  suffix.data.isSuffixOf s.data

/-- `SimpleStorage.get_project` (lines 163-164): first project whose id
matches. -/
def Storage.get_project (st : Storage) (project_id : String) : Option Project :=
  st.projects.find? (fun p => p.id == project_id)

/-- `SimpleStorage.create_project` (lines 133-155): allocate the count-derived
id, append the record, install the default bucket and table name lists.  The
`_save_projects()` call on line 149 is performed by the caller via `Sys.save`
(the composite effect is identical). -/
def Storage.create_project (st : Storage) (name template : String)
    (description : Option String) : Storage × Project :=
  let project_id := ("project_") ++ toString (st.projects.length + 1)
  let project : Project :=
    ⟨project_id, name, template, description, ("2025-01-01T00:00:00Z")⟩
  ({ st with
      projects := st.projects ++ [project]
      buckets := dictInsert st.buckets project_id
        [("research"), ("references"), ("inspiration")]
      tables := dictInsert st.tables project_id
        [("characters"), ("scenes"), ("themes")] },
   project)

/-- The allowed template enumeration (line 291). -/
def valid_templates : List String := [("screenplay"), ("academic"), ("business")]

/-- POST /projects (lines 287-310): validate template and name length, then
create and persist. -/
def create_project_endpoint (sys : Sys) (name template : String)
    (description : Option String) : Except HTTPError (Sys × Project) :=
  if valid_templates.contains template then
    if 100 < name.length then
      .error ⟨422, ("Project name too long (max 100 characters)")⟩
    else
      let r := sys.storage.create_project name template description
      .ok (Sys.save { sys with storage := r.1 }, r.2)
  else
    .error ⟨422,
      ("Invalid template. Must be one of: [\x27screenplay\x27, \x27academic\x27, \x27business\x27]")⟩

/-- GET /projects/(id) (lines 312-318). -/
def get_project_endpoint (sys : Sys) (project_id : String) :
    Except HTTPError Project :=
  match sys.storage.get_project project_id with
  | none => .error ⟨404, ("Project not found")⟩
  | some p => .ok p

/-- DELETE /projects/(id) (lines 320-337): remove every project with the id,
drop brainstorms referencing it and the bucket and table entries keyed by it,
then persist.  `storage.uploads` is not touched. -/
def delete_project_endpoint (sys : Sys) (project_id : String) :
    Except HTTPError (Sys × String) :=
  match sys.storage.get_project project_id with
  | none => .error ⟨404, ("Project not found")⟩
  | some _ =>
    let st := sys.storage
    let st2 : Storage :=
      { projects := st.projects.filter (fun p => !(p.id == project_id))
        brainstorms := st.brainstorms.filter (fun kv => !(kv.2.project_id == project_id))
        uploads := st.uploads
        buckets := st.buckets.filter (fun kv => !(kv.1 == project_id))
        tables := st.tables.filter (fun kv => !(kv.1 == project_id)) }
    .ok (Sys.save { sys with storage := st2 }, ("Project deleted"))

/-- POST /projects/(id)/buckets (lines 355-375). -/
def create_bucket_endpoint (sys : Sys) (project_id : String)
    (reqName : Option String) : Except HTTPError (Sys × String) :=
  match sys.storage.get_project project_id with
  | none => .error ⟨404, ("Project not found")⟩
  | some _ =>
    let bucket_name := (reqName.getD ("")).trim
    if bucket_name == ("") then .error ⟨422, ("Bucket name required")⟩
    else
      let cur := dictGetD sys.storage.buckets project_id []
      if cur.contains bucket_name then
        .error ⟨409, ("Bucket already exists")⟩
      else
        let st2 := { sys.storage with
          buckets := dictInsert sys.storage.buckets project_id (cur ++ [bucket_name]) }
        .ok (Sys.save { sys with storage := st2 }, bucket_name)

/-- Response payload of a successful bucket upload (lines 413-422). -/
structure BucketFileResp where
  id : String
  filename : String
  size : Nat
  bucket : String
  status : String
deriving DecidableEq

/-- POST /projects/(id)/buckets/(name)/upload (lines 377-422): validate the
project and bucket, enforce the 10 MiB ceiling (`if file_size > 10*1024*1024`),
write the file under the project tree, and record the upload in the in-memory
`uploads` dict.  No `_save_projects()` call occurs on this path. -/
def upload_to_bucket (sys : Sys) (project_id bucket_name filename content : String) :
    Except HTTPError (Sys × BucketFileResp) :=
  match sys.storage.get_project project_id with
  | none => .error ⟨404, ("Project not found")⟩
  | some _ =>
    if (dictGetD sys.storage.buckets project_id []).contains bucket_name then
      let file_size := content.utf8ByteSize
      if 10 * 1024 * 1024 < file_size then
        .error ⟨413, ("File too large")⟩
      else
        let file_id := ("file_") ++ toString (sys.storage.uploads.length + 1)
        let fileRec : UploadRec :=
          ⟨file_id, filename, file_size, project_id, bucket_name,
            ("projects/") ++ project_id ++ ("/buckets/") ++ bucket_name
              ++ ("/") ++ filename⟩
        let st2 := { sys.storage with
          uploads := dictInsert sys.storage.uploads file_id fileRec }
        .ok ({ sys with storage := st2 },
          ⟨file_id, filename, file_size, bucket_name, ("uploaded")⟩)
    else
      .error ⟨404, ("Bucket not found")⟩

/-- Response payload of a successful table CSV upload (lines 473-480). -/
structure TableUploadResp where
  name : String
  rows_imported : Nat
  filename : String
deriving DecidableEq

/-- POST /projects/(id)/tables/(name)/upload (lines 440-480): validate the
project, require a `.csv` filename, write the file, count rows, and register
the table name if new (persisting only in that case).  Note: no size ceiling
is checked on this path. -/
def upload_csv_to_table (sys : Sys) (project_id table_name filename content : String) :
    Except HTTPError (Sys × TableUploadResp) :=
  match sys.storage.get_project project_id with
  | none => .error ⟨404, ("Project not found")⟩
  | some _ =>
    if strEndsWith filename (".csv") then
      let rows_count := (content.splitOn ("\n")).length - 1
      let tbl := dictGetD sys.storage.tables project_id []
      if tbl.contains table_name then
        .ok (sys, ⟨table_name, rows_count, filename⟩)
      else
        let st2 := { sys.storage with
          tables := dictInsert sys.storage.tables project_id (tbl ++ [table_name]) }
        .ok (Sys.save { sys with storage := st2 }, ⟨table_name, rows_count, filename⟩)
    else
      .error ⟨422, ("Only CSV files allowed")⟩

/-- Body of a brainstorm response: either the success dict with the stored
record, or the structured failure dict (success false, error, type). -/
inductive BrainstormResp
  | success (brainstorm : Brainstorm)
  | failure (error : String) (etype : String)
deriving DecidableEq

/-- POST /projects/(id)/brainstorm (lines 523-572): validate the project,
return the configuration_error payload when OPENAI_API_KEY is unset, else
deterministically generate five templated ideas, store and persist the
brainstorm. -/
def brainstorm_project (apiKeySet : Bool) (sys : Sys) (project_id : String)
    (ctx focus tone : Option String) : Except HTTPError (Sys × BrainstormResp) :=
  match sys.storage.get_project project_id with
  | none => .error ⟨404, ("Project not found")⟩
  | some _ =>
    if apiKeySet then
      let context := ctx.getD ("General brainstorming")
      let focus := focus.getD ("Creative development")
      let tone := tone.getD ("neutral")
      let brainstorm_id := ("brainstorm_") ++ toString (sys.storage.brainstorms.length + 1)
      let ideas : List String :=
        [ ("Character development: Explore ") ++ focus ++ (" through internal conflict"),
          ("Plot advancement: Use ") ++ context ++ (" to create story complications"),
          ("Thematic exploration: Apply ") ++ tone ++ (" tone to reveal deeper meaning"),
          ("Setting integration: Environment reflects ") ++ focus,
          ("Dialogue opportunities: Voices that embody ") ++ tone ++ (" perspective") ]
      let b : Brainstorm :=
        ⟨brainstorm_id, project_id, context, focus, tone, ideas, ("2025-01-01T00:00:00Z")⟩
      let st2 := { sys.storage with
        brainstorms := dictInsert sys.storage.brainstorms brainstorm_id b }
      .ok (Sys.save { sys with storage := st2 }, .success b)
    else
      .ok (sys, .failure ("OpenAI API key not configured") ("configuration_error"))

/-- Python `str.split()` with no separator: split on whitespace runs, dropping
empty pieces; used for the word count. -/
def pySplitWs (s : String) : List String :=
  (s.split Char.isWhitespace).filter (fun w => !w.isEmpty)

/-- The content template of the write endpoint (lines 600-627), keyed by
format. -/
def renderWriteContent (format_type context : String) : String :=
  if format_type == ("screenplay") then
    ("FADE IN:\n\nEXT. CREATIVE WORKSPACE - DAY\n\n") ++ context ++
      ("\n\nA WRITER sits focused at their desk, crafting compelling narrative. The work flows naturally from inspiration to execution.\n\nWRITER\nThis story needs to be told.\n\nThe Writer continues with purpose and clarity.\n\nFADE OUT.")
  else
    ("# Generated Content\n\n## Context\n") ++ context ++
      ("\n\nThis professionally generated content demonstrates Miranda\x27s AI writing capabilities with contextual awareness and narrative consistency.\n\n## Key Features\n- Context-aware generation\n- Template-based formatting\n- Iterative refinement support\n- Professional output quality")

/-- Body of a write response: the success dict (content, format, word_count,
context_used) or the structured failure dict. -/
inductive WriteResp
  | success (content : String) (format : String) (word_count : Nat) (context_used : Bool)
  | failure (error : String) (etype : String)
deriving DecidableEq

/-- POST /projects/(id)/write (lines 574-642): validate the project, return
the configuration_error payload when the key is unset, else build the context
string — from the first two ideas of the referenced brainstorm when
`brainstorm_id` is truthy and present in `storage.brainstorms`, else the
default derived from the project name — and render the template.  The handler
never mutates storage. -/
def write_content (apiKeySet : Bool) (sys : Sys) (project_id : String)
    (fmt : Option String) (brainstorm_id : Option String) :
    Except HTTPError WriteResp :=
  match sys.storage.get_project project_id with
  | none => .error ⟨404, ("Project not found")⟩
  | some project =>
    if apiKeySet then
      let format_type := fmt.getD ("screenplay")
      let context_info : List String :=
        match brainstorm_id with
        | none => []
        | some bid =>
          if bid == ("") then []
          else match dictGet? sys.storage.brainstorms bid with
          | none => []
          | some b => [("Ideas: ") ++ String.intercalate (", ") (b.ideas.take 2)]
      let context :=
        if context_info.isEmpty then ("Content for ") ++ project.name
        else String.intercalate (" | ") context_info
      let content := renderWriteContent format_type context
      .ok (.success content.trim format_type (pySplitWs content).length
        (!context_info.isEmpty))
    else
      .ok (.failure ("OpenAI API key not configured") ("configuration_error"))

/-- The deterministic answer of the in-repo mock LightRAG
(`create_mock_lightrag`, lines 231-244), which the gateway falls back to when
the real library is unavailable. -/
def mock_aquery (query : String) : String :=
  ("Mock response: This is a simulated answer to \x27") ++ query ++
    ("\x27. The real LightRAG system would provide contextual information based on inserted documents.")

/-- Body of a /lightrag/query response. -/
inductive LightragResp
  | success (query result method : String)
  | failure (error : String) (etype : String)
deriving DecidableEq

/-- POST /lightrag/query (lines 486-521): return the configuration_error
payload when the key is unset; the configured path is modelled through the
in-repo mock fallback (the real LightRAG library is an external dependency
outside this file).  The handler touches no storage and never throws. -/
def query_lightrag (apiKeySet : Bool) (text query : Option String) : LightragResp :=
  let q := query.getD ("What is this about?")
  let t := text.getD ("")
  if apiKeySet then
    let _inserted := t
    .success q (mock_aquery q) ("lightrag_integration")
  else
    .failure ("OpenAI API key not configured") ("configuration_error")

/-- True exactly on non-error handler results. -/
def isOkE (r : Except HTTPError α) : Bool :=
  match r with
  | .ok _ => true
  | .error _ => false

/-- The HTTP status of an error result, if any. -/
def errorStatus (r : Except HTTPError α) : Option Nat :=
  match r with
  | .error e => some e.status_code
  | .ok _ => none

/-- True exactly when a brainstorm call produced the success dict. -/
def brainstormOk (r : Except HTTPError (Sys × BrainstormResp)) : Bool :=
  match r with
  | .ok (_, .success _) => true
  | _ => false

/-- States reachable from a fresh start by the mutating endpoints of the
backend, including server restarts (which re-load the persisted document). -/
inductive Reachable : Sys → Prop
  | init : Reachable Sys.init
  | create {sys sys2 : Sys} {n t : String} {d : Option String} {p : Project} :
      Reachable sys → create_project_endpoint sys n t d = Except.ok (sys2, p) →
      Reachable sys2
  | del {sys sys2 : Sys} {pid msg : String} :
      Reachable sys → delete_project_endpoint sys pid = Except.ok (sys2, msg) →
      Reachable sys2
  | mkBucket {sys sys2 : Sys} {pid : String} {n : Option String} {b : String} :
      Reachable sys → create_bucket_endpoint sys pid n = Except.ok (sys2, b) →
      Reachable sys2
  | upload {sys sys2 : Sys} {pid bn fn c : String} {r : BucketFileResp} :
      Reachable sys → upload_to_bucket sys pid bn fn c = Except.ok (sys2, r) →
      Reachable sys2
  | csvUpload {sys sys2 : Sys} {pid tn fn c : String} {r : TableUploadResp} :
      Reachable sys → upload_csv_to_table sys pid tn fn c = Except.ok (sys2, r) →
      Reachable sys2
  | brainstorm {k : Bool} {sys sys2 : Sys} {pid : String} {cx f t : Option String}
      {r : BrainstormResp} :
      Reachable sys → brainstorm_project k sys pid cx f t = Except.ok (sys2, r) →
      Reachable sys2
  | restart {sys : Sys} : Reachable sys → Reachable ⟨loadStorage sys.disk, sys.disk⟩

/-- The referential-integrity invariant the spec intends for the dependent
collections that deletion does cascade: every brainstorm, bucket entry and
table entry is keyed to the id of some currently stored project. -/
def refsValid (st : Storage) : Prop :=
  (∀ kv ∈ st.brainstorms, ∃ p ∈ st.projects, p.id = kv.2.project_id) ∧
  (∀ kv ∈ st.buckets, ∃ p ∈ st.projects, p.id = kv.1) ∧
  (∀ kv ∈ st.tables, ∃ p ∈ st.projects, p.id = kv.1)

/-- After deletion of `pid`: no brainstorm, bucket entry or table entry keyed
to `pid` remains. -/
def cascadeDeleted (st : Storage) (pid : String) : Prop :=
  (∀ kv ∈ st.brainstorms, kv.2.project_id ≠ pid) ∧
  (∀ kv ∈ st.buckets, kv.1 ≠ pid) ∧
  (∀ kv ∈ st.tables, kv.1 ≠ pid)

/-- The persisted document always reproduces the in-memory collections (with
`uploads` reset): the key lemma for restart steps. -/
def diskMatches (sys : Sys) : Prop :=
  loadStorage sys.disk = { sys.storage with uploads := [] }

/-- Chain a handler call, keeping the old state if it errored; used to build
the concrete scenario states below. -/
def stepOr (sys : Sys) (r : Except HTTPError (Sys × α)) : Sys :=
  match r with
  | .ok x => x.1
  | .error _ => sys

/-- The first project created in the concrete scenarios. -/
def projA : Project :=
  ⟨("project_1"), ("A"), ("screenplay"), none, ("2025-01-01T00:00:00Z")⟩

/-- The second project created in the concrete scenarios. -/
def projB : Project :=
  ⟨("project_2"), ("B"), ("screenplay"), none, ("2025-01-01T00:00:00Z")⟩

/-- State after creating project "A" on a fresh server. -/
def sysA : Sys := stepOr Sys.init (create_project_endpoint Sys.init ("A") ("screenplay") none)

/-- State after additionally creating project "B". -/
def sysB : Sys := stepOr sysA (create_project_endpoint sysA ("B") ("screenplay") none)

/-- State after deleting "project_1" out of `sysB`: one project remains and
its id is "project_2", while the next count-derived id is also "project_2". -/
def sysBdel : Sys := stepOr sysB (delete_project_endpoint sysB ("project_1"))

/-- State after the colliding create of project "C" at `sysBdel`. -/
def sysCcoll : Sys := stepOr sysBdel (create_project_endpoint sysBdel ("C") ("screenplay") none)

/-- State after deleting "project_1" out of `sysA`. -/
def sysAdel : Sys := stepOr sysA (delete_project_endpoint sysA ("project_1"))

/-- State after a brainstorm call (with the key configured) at `sysA`. -/
def sysAB : Sys := stepOr sysA (brainstorm_project true sysA ("project_1") none none none)

/-- State after uploading "notes.txt" into bucket "research" at `sysA`. -/
def sysU : Sys :=
  stepOr sysA (upload_to_bucket sysA ("project_1") ("research") ("notes.txt") ("hello"))

/-- State after deleting "project_1" out of `sysU`. -/
def sysUdel : Sys := stepOr sysU (delete_project_endpoint sysU ("project_1"))

/-- A string of n copies of the byte 0x61; its UTF-8 size is n, giving
concrete payloads at and above the 10 MiB ceiling. -/
def aString (n : Nat) : String := String.mk (List.replicate n ('a'))

/-- The brainstorm record stored by the successful call building `sysAB`. -/
def brainB : Brainstorm :=
  ⟨("brainstorm_1"), ("project_1"), ("General brainstorming"),
    ("Creative development"), ("neutral"),
    [ ("Character development: Explore Creative development through internal conflict"),
      ("Plot advancement: Use General brainstorming to create story complications"),
      ("Thematic exploration: Apply neutral tone to reveal deeper meaning"),
      ("Setting integration: Environment reflects Creative development"),
      ("Dialogue opportunities: Voices that embody neutral perspective") ],
    ("2025-01-01T00:00:00Z")⟩

theorem aString_go (n : Nat) :
    String.utf8ByteSize.go (List.replicate n ('a')) = n := by
  induction n with
  | zero => rfl
  | succ m ih =>
    rw [List.replicate_succ]
    show String.utf8ByteSize.go (List.replicate m ('a')) + Char.utf8Size ('a') = m + 1
    have h : Char.utf8Size ('a') = 1 := by decide
    rw [ih, h]

/-- The UTF-8 byte size of `aString n` is `n`. -/
theorem aString_utf8ByteSize (n : Nat) : (aString n).utf8ByteSize = n := aString_go n

/-- Reloading the saved document reproduces the collections with `uploads`
reset. -/
theorem load_save (st : Storage) :
    loadStorage (saveDoc st) = { st with uploads := [] } := rfl

theorem dictGet?_map_insert (d : List (String × α)) (k : String) (v : α)
    (h : dictHasKey d k = true) :
    dictGet? (d.map (fun kv => if kv.1 == k then (k, v) else kv)) k = some v := by
  induction d with
  | nil => simp [dictHasKey] at h
  | cons kv rest ih =>
    rw [List.map_cons]
    by_cases hk : (kv.1 == k) = true
    · rw [if_pos hk]
      show (if (k == k) = true then some v else _) = some v
      rw [if_pos (by simp)]
    · rw [if_neg hk]
      show (if (kv.1 == k) = true then some kv.2 else _) = some v
      rw [if_neg hk]
      apply ih
      simp only [dictHasKey, Bool.or_eq_true] at h
      rcases h with h1 | h2
      · exact absurd h1 hk
      · exact h2

theorem dictGet?_append_fresh (d : List (String × α)) (k : String) (v : α)
    (h : dictHasKey d k = false) :
    dictGet? (d ++ [(k, v)]) k = some v := by
  induction d with
  | nil => simp [dictGet?]
  | cons kv rest ih =>
    simp only [dictHasKey, Bool.or_eq_false_iff] at h
    simp [dictGet?, h.1, ih h.2]

/-- `dictGet?` after `dictInsert` at the same key yields the inserted value. -/
theorem dictGet?_insert (d : List (String × α)) (k : String) (v : α) :
    dictGet? (dictInsert d k v) k = some v := by
  unfold dictInsert
  split
  · exact dictGet?_map_insert d k v (by assumption)
  · exact dictGet?_append_fresh d k v (by simpa using (by assumption : ¬dictHasKey d k = true))

/-- Every entry of `dictInsert d k v` is either the inserted pair or was
already in `d`. -/
theorem mem_dictInsert {d : List (String × α)} {k : String} {v : α} {kv : String × α}
    (h : kv ∈ dictInsert d k v) : kv = (k, v) ∨ kv ∈ d := by
  unfold dictInsert at h
  split at h
  · rcases List.mem_map.mp h with ⟨x, hx, hfx⟩
    by_cases hk : (x.1 == k) = true
    · left
      rw [← hfx, if_pos hk]
    · right
      rw [← hfx, if_neg hk]
      exact hx
  · rcases List.mem_append.mp h with h1 | h1
    · right
      exact h1
    · left
      simpa using h1

/-- A successful `get_project` returns a stored project with the queried id. -/
theorem get_project_mem {st : Storage} {pid : String} {p : Project}
    (h : st.get_project pid = some p) : p ∈ st.projects ∧ p.id = pid := by
  refine ⟨List.mem_of_find?_eq_some h, ?_⟩
  have := List.find?_some h
  simpa using this

theorem find_id_append {l : List Project} {x : Project} {s : String}
    (h : ∀ q ∈ l, q.id ≠ s) (hx : x.id = s) :
    (l ++ [x]).find? (fun q => q.id == s) = some x := by
  induction l with
  | nil => simp [List.find?, hx]
  | cons a l ih =>
    have ha : (a.id == s) = false := by
      have := h a (List.mem_cons_self a l)
      simpa using this
    rw [List.cons_append]
    rw [List.find?_cons_of_neg _ (by simp [ha])]
    exact ih (fun q hq => h q (List.mem_cons_of_mem a hq))

theorem find_id_filter (l : List Project) (pid : String) :
    (l.filter (fun p => !(p.id == pid))).find? (fun p => p.id == pid) = none := by
  apply List.find?_eq_none.mpr
  intro x hx
  have := (List.mem_filter.mp hx).2
  simpa using this


theorem refsValid_nil : refsValid (loadStorage emptyDoc) := by
  refine ⟨?_, ?_, ?_⟩ <;> intro kv hkv <;> exact absurd hkv (List.not_mem_nil kv)

theorem create_preserves {sys sys2 : Sys} {n t : String} {d : Option String} {p : Project}
    (hstep : create_project_endpoint sys n t d = Except.ok (sys2, p))
    (ih : refsValid sys.storage ∧ diskMatches sys) :
    refsValid sys2.storage ∧ diskMatches sys2 := by
  unfold create_project_endpoint at hstep
  split at hstep
  · split at hstep
    · exact absurd hstep (by simp)
    · simp only [Except.ok.injEq, Prod.mk.injEq] at hstep
      obtain ⟨hsys, hp⟩ := hstep
      subst hsys
      constructor
      · unfold Storage.create_project
        refine ⟨?_, ?_, ?_⟩
        · intro kv hkv
          obtain ⟨q, hq, hid⟩ := ih.1.1 kv hkv
          exact ⟨q, List.mem_append_left _ hq, hid⟩
        · intro kv hkv
          rcases mem_dictInsert hkv with h1 | h1
          · subst h1
            exact ⟨_, List.mem_append_right _ (List.mem_singleton_self _), rfl⟩
          · obtain ⟨q, hq, hid⟩ := ih.1.2.1 kv h1
            exact ⟨q, List.mem_append_left _ hq, hid⟩
        · intro kv hkv
          rcases mem_dictInsert hkv with h1 | h1
          · subst h1
            exact ⟨_, List.mem_append_right _ (List.mem_singleton_self _), rfl⟩
          · obtain ⟨q, hq, hid⟩ := ih.1.2.2 kv h1
            exact ⟨q, List.mem_append_left _ hq, hid⟩
      · exact load_save _
  · exact absurd hstep (by simp)

theorem del_preserves {sys sys2 : Sys} {pid msg : String}
    (hstep : delete_project_endpoint sys pid = Except.ok (sys2, msg))
    (ih : refsValid sys.storage ∧ diskMatches sys) :
    refsValid sys2.storage ∧ diskMatches sys2 := by
  unfold delete_project_endpoint at hstep
  split at hstep
  · exact absurd hstep (by simp)
  · simp only [Except.ok.injEq, Prod.mk.injEq] at hstep
    obtain ⟨hsys, _⟩ := hstep
    subst hsys
    refine ⟨⟨?_, ?_, ?_⟩, load_save _⟩
    · intro kv hkv
      obtain ⟨hmem, hne⟩ := List.mem_filter.mp hkv
      obtain ⟨q, hq, hid⟩ := ih.1.1 kv hmem
      refine ⟨q, List.mem_filter.mpr ⟨hq, ?_⟩, hid⟩
      simp only [Bool.not_eq_eq_eq_not, Bool.not_true, beq_eq_false_iff_ne] at hne ⊢
      rw [hid]
      exact hne
    · intro kv hkv
      obtain ⟨hmem, hne⟩ := List.mem_filter.mp hkv
      obtain ⟨q, hq, hid⟩ := ih.1.2.1 kv hmem
      refine ⟨q, List.mem_filter.mpr ⟨hq, ?_⟩, hid⟩
      simp only [Bool.not_eq_eq_eq_not, Bool.not_true, beq_eq_false_iff_ne] at hne ⊢
      rw [hid]
      exact hne
    · intro kv hkv
      obtain ⟨hmem, hne⟩ := List.mem_filter.mp hkv
      obtain ⟨q, hq, hid⟩ := ih.1.2.2 kv hmem
      refine ⟨q, List.mem_filter.mpr ⟨hq, ?_⟩, hid⟩
      simp only [Bool.not_eq_eq_eq_not, Bool.not_true, beq_eq_false_iff_ne] at hne ⊢
      rw [hid]
      exact hne

theorem mkBucket_preserves {sys sys2 : Sys} {pid : String} {n : Option String} {b : String}
    (hstep : create_bucket_endpoint sys pid n = Except.ok (sys2, b))
    (ih : refsValid sys.storage ∧ diskMatches sys) :
    refsValid sys2.storage ∧ diskMatches sys2 := by
  unfold create_bucket_endpoint at hstep
  split at hstep
  · exact absurd hstep (by simp)
  · rename_i proj hproj
    simp only [] at hstep
    split at hstep
    · exact absurd hstep (by simp)
    · split at hstep
      · exact absurd hstep (by simp)
      · simp only [Except.ok.injEq, Prod.mk.injEq] at hstep
        obtain ⟨hsys, _⟩ := hstep
        subst hsys
        refine ⟨⟨ih.1.1, ?_, ih.1.2.2⟩, load_save _⟩
        intro kv hkv
        rcases mem_dictInsert hkv with h1 | h1
        · obtain ⟨hmem, hid⟩ := get_project_mem hproj
          subst h1
          exact ⟨proj, hmem, hid⟩
        · exact ih.1.2.1 kv h1

theorem upload_preserves {sys sys2 : Sys} {pid bn fn c : String} {r : BucketFileResp}
    (hstep : upload_to_bucket sys pid bn fn c = Except.ok (sys2, r))
    (ih : refsValid sys.storage ∧ diskMatches sys) :
    refsValid sys2.storage ∧ diskMatches sys2 := by
  unfold upload_to_bucket at hstep
  split at hstep
  · exact absurd hstep (by simp)
  · split at hstep
    · simp only [] at hstep
      split at hstep
      · exact absurd hstep (by simp)
      · simp only [Except.ok.injEq, Prod.mk.injEq] at hstep
        obtain ⟨hsys, _⟩ := hstep
        subst hsys
        exact ⟨ih.1, ih.2⟩
    · exact absurd hstep (by simp)

theorem csvUpload_preserves {sys sys2 : Sys} {pid tn fn c : String} {r : TableUploadResp}
    (hstep : upload_csv_to_table sys pid tn fn c = Except.ok (sys2, r))
    (ih : refsValid sys.storage ∧ diskMatches sys) :
    refsValid sys2.storage ∧ diskMatches sys2 := by
  unfold upload_csv_to_table at hstep
  split at hstep
  · exact absurd hstep (by simp)
  · rename_i proj hproj
    split at hstep
    · simp only [] at hstep
      split at hstep
      · simp only [Except.ok.injEq, Prod.mk.injEq] at hstep
        obtain ⟨hsys, _⟩ := hstep
        subst hsys
        exact ih
      · simp only [Except.ok.injEq, Prod.mk.injEq] at hstep
        obtain ⟨hsys, _⟩ := hstep
        subst hsys
        refine ⟨⟨ih.1.1, ih.1.2.1, ?_⟩, load_save _⟩
        intro kv hkv
        rcases mem_dictInsert hkv with h1 | h1
        · obtain ⟨hmem, hid⟩ := get_project_mem hproj
          subst h1
          exact ⟨proj, hmem, hid⟩
        · exact ih.1.2.2 kv h1
    · exact absurd hstep (by simp)

theorem brainstorm_preserves {k : Bool} {sys sys2 : Sys} {pid : String}
    {cx f t : Option String} {r : BrainstormResp}
    (hstep : brainstorm_project k sys pid cx f t = Except.ok (sys2, r))
    (ih : refsValid sys.storage ∧ diskMatches sys) :
    refsValid sys2.storage ∧ diskMatches sys2 := by
  unfold brainstorm_project at hstep
  split at hstep
  · exact absurd hstep (by simp)
  · rename_i proj hproj
    split at hstep
    · simp only [Except.ok.injEq, Prod.mk.injEq] at hstep
      obtain ⟨hsys, _⟩ := hstep
      subst hsys
      refine ⟨⟨?_, ih.1.2.1, ih.1.2.2⟩, load_save _⟩
      intro kv hkv
      rcases mem_dictInsert hkv with h1 | h1
      · obtain ⟨hmem, hid⟩ := get_project_mem hproj
        subst h1
        exact ⟨proj, hmem, hid⟩
      · exact ih.1.1 kv h1
    · simp only [Except.ok.injEq, Prod.mk.injEq] at hstep
      obtain ⟨hsys, _⟩ := hstep
      subst hsys
      exact ih

theorem reachable_inv {sys : Sys} (h : Reachable sys) :
    refsValid sys.storage ∧ diskMatches sys := by
  induction h with
  | init => exact ⟨refsValid_nil, rfl⟩
  | create _ hstep ih => exact create_preserves hstep ih
  | del _ hstep ih => exact del_preserves hstep ih
  | mkBucket _ hstep ih => exact mkBucket_preserves hstep ih
  | upload _ hstep ih => exact upload_preserves hstep ih
  | csvUpload _ hstep ih => exact csvUpload_preserves hstep ih
  | brainstorm _ hstep ih => exact brainstorm_preserves hstep ih
  | restart _ ih =>
    constructor
    · rw [show loadStorage _ = _ from ih.2]
      exact ih.1
    · show loadStorage _ = _
      rw [show loadStorage _ = _ from ih.2]

/-- C1 (corrected): two independent halves, each over every state.  First: if
the count-derived id about to be allocated does not already occur among the
stored projects, then whenever `create` succeeds, `get` with the returned id
yields exactly the created record.  Second, with no proviso at all: whenever
`delete` of an id succeeds, `get` of that id on the resulting state reports
not-found (404) — this holds in every state, including the collision states
reached after deletions.  The freshness proviso on the first half alone is
forced by `C1_counterexample`: after deletions the id
`"project_" + (count+1)` can collide with a surviving project, and `get`
returns the first matching list entry, which is then not the record `create`
returned. -/
theorem C1_theorem (sys : Sys) (name template : String) (d : Option String)
    (pid : String) :
    ((∀ q ∈ sys.storage.projects,
        q.id ≠ ("project_") ++ toString (sys.storage.projects.length + 1)) →
      ∀ sys1 proj, create_project_endpoint sys name template d = Except.ok (sys1, proj) →
        get_project_endpoint sys1 proj.id = .ok proj) ∧
    (∀ sys2 msg, delete_project_endpoint sys pid = Except.ok (sys2, msg) →
      get_project_endpoint sys2 pid = .error ⟨404, ("Project not found")⟩) := by
  constructor
  · intro hfresh sys1 proj hc
    unfold create_project_endpoint Storage.create_project at hc
    split at hc
    · split at hc
      · exact absurd hc (by simp)
      · simp only [Except.ok.injEq, Prod.mk.injEq] at hc
        obtain ⟨hsys, hp⟩ := hc
        subst hsys
        subst hp
        unfold get_project_endpoint Storage.get_project Sys.save
        dsimp only
        rw [find_id_append (fun q hq => hfresh q hq) rfl]
    · exact absurd hc (by simp)
  · intro sys2 msg hd
    unfold delete_project_endpoint at hd
    split at hd
    · exact absurd hd (by simp)
    · simp only [Except.ok.injEq, Prod.mk.injEq] at hd
      obtain ⟨hsys, _⟩ := hd
      subst hsys
      unfold get_project_endpoint Storage.get_project Sys.save
      dsimp only
      rw [find_id_filter]

/-- C6 (confirmed): creating a project whose template is outside
(screenplay, academic, business), or whose name exceeds 100 characters, fails
with HTTP 422 before any storage mutation: the endpoint returns an error (so
no successor state and no list entry is produced — in this state-passing
embedding the store the caller holds is unchanged). -/
theorem C6_theorem (sys : Sys) (name template : String) (d : Option String)
    (h : valid_templates.contains template = false ∨ 100 < name.length) :
    errorStatus (create_project_endpoint sys name template d) = some 422 ∧
    isOkE (create_project_endpoint sys name template d) = false := by
  rcases h with h | h
  · have h2 : template ∉ valid_templates := by simpa using h
    simp [create_project_endpoint, h2, errorStatus, isOkE]
  · by_cases hT : template ∈ valid_templates <;>
      simp [create_project_endpoint, hT, h, errorStatus, isOkE]

/-- C7 (confirmed): serialising any storage state with `_save_projects` and
reloading it with `_load_projects` reproduces exactly the same project list
and the same brainstorm collection. -/
theorem C7_theorem (st : Storage) :
    (loadStorage (saveDoc st)).projects = st.projects ∧
    (loadStorage (saveDoc st)).brainstorms = st.brainstorms := ⟨rfl, rfl⟩

/-- C9 (confirmed): a successful bucket upload leaves the persisted JSON
document and the projects, brainstorms, buckets and tables collections
untouched (it mutates only the in-memory uploads dict and the file tree), and
upload records are never part of the persisted document, so a save followed by
a reload always yields an empty uploads dict. -/
theorem C9_theorem (sys sys2 : Sys) (pid bn fn c : String) (r : BucketFileResp)
    (h : upload_to_bucket sys pid bn fn c = Except.ok (sys2, r)) :
    sys2.disk = sys.disk ∧
    sys2.storage.projects = sys.storage.projects ∧
    sys2.storage.brainstorms = sys.storage.brainstorms ∧
    sys2.storage.buckets = sys.storage.buckets ∧
    sys2.storage.tables = sys.storage.tables ∧
    (loadStorage (saveDoc sys2.storage)).uploads = [] := by
  unfold upload_to_bucket at h
  split at h
  · exact absurd h (by simp)
  · split at h
    · simp only [] at h
      split at h
      · exact absurd h (by simp)
      · simp only [Except.ok.injEq, Prod.mk.injEq] at h
        obtain ⟨hsys, _⟩ := h
        subst hsys
        exact ⟨rfl, rfl, rfl, rfl, rfl, rfl⟩
    · exact absurd h (by simp)

/-- C10 (confirmed): every successful project creation installs exactly the
bucket names [research, references, inspiration] and the table names
[characters, scenes, themes], in that order, under the new project id. -/
theorem C10_theorem (sys sys2 : Sys) (n t : String) (d : Option String) (p : Project)
    (hc : create_project_endpoint sys n t d = Except.ok (sys2, p)) :
    dictGet? sys2.storage.buckets p.id =
      some [("research"), ("references"), ("inspiration")] ∧
    dictGet? sys2.storage.tables p.id =
      some [("characters"), ("scenes"), ("themes")] := by
  unfold create_project_endpoint Storage.create_project at hc
  split at hc
  · split at hc
    · exact absurd hc (by simp)
    · simp only [Except.ok.injEq, Prod.mk.injEq] at hc
      obtain ⟨hsys, hp⟩ := hc
      subst hsys
      subst hp
      exact ⟨dictGet?_insert _ _ _, dictGet?_insert _ _ _⟩
  · exact absurd hc (by simp)



/-- C2 (corrected): once the project exists AND the OPENAI_API_KEY credential
is configured, the brainstorm operation always returns the success payload
carrying a Brainstorm record — the generation is pure templated code that
cannot fail.  The original claim ("regardless of whether a credential is
configured") is refuted by `C2_counterexample`. -/
theorem C2_theorem (sys : Sys) (pid : String) (cx f t : Option String) (proj : Project)
    (hp : sys.storage.get_project pid = some proj) :
    brainstormOk (brainstorm_project true sys pid cx f t) = true := by
  simp [brainstorm_project, hp, brainstormOk]

/-- C4 (confirmed): with no OPENAI_API_KEY, each AI Gateway call — brainstorm,
write, and lightrag query — on an existing project returns the structured
payload with success false and error type `configuration_error`, and returns
normally (no `HTTPException` is raised and no exception propagates: the
results are `.ok` values / plain payloads). -/
theorem C4_theorem (sys : Sys) (pid : String) (cx f t fm bid text q : Option String)
    (proj : Project)
    (hp : sys.storage.get_project pid = some proj) :
    brainstorm_project false sys pid cx f t =
      .ok (sys, .failure ("OpenAI API key not configured") ("configuration_error")) ∧
    write_content false sys pid fm bid =
      .ok (.failure ("OpenAI API key not configured") ("configuration_error")) ∧
    query_lightrag false text q =
      .failure ("OpenAI API key not configured") ("configuration_error") := by
  refine ⟨?_, ?_, ?_⟩
  · simp [brainstorm_project, hp]
  · simp [write_content, hp]
  · simp [query_lightrag]

/-- C3 (corrected): for an existing project and bucket, a bucket upload of at
most 10 MiB (in particular exactly 10*1024*1024 bytes) succeeds and one byte
over fails with 413 PayloadTooLarge; a table upload with a filename lacking
the .csv extension fails with 422; but a table upload whose filename ends in
.csv succeeds at ANY size — the size ceiling is enforced on the bucket path
only, refuting the original "these checks apply to both" (see `C3_counterexample`). -/
theorem C3_theorem (sys : Sys) (pid bn tn fn content : String) (proj : Project)
    (hp : sys.storage.get_project pid = some proj)
    (hb : (dictGetD sys.storage.buckets pid []).contains bn = true) :
    (content.utf8ByteSize ≤ 10 * 1024 * 1024 →
      isOkE (upload_to_bucket sys pid bn fn content) = true) ∧
    (10 * 1024 * 1024 < content.utf8ByteSize →
      upload_to_bucket sys pid bn fn content = .error ⟨413, ("File too large")⟩) ∧
    (strEndsWith fn (".csv") = false →
      upload_csv_to_table sys pid tn fn content = .error ⟨422, ("Only CSV files allowed")⟩) ∧
    (strEndsWith fn (".csv") = true →
      isOkE (upload_csv_to_table sys pid tn fn content) = true) := by
  have hb2 : bn ∈ dictGetD sys.storage.buckets pid [] := by simpa using hb
  refine ⟨?_, ?_, ?_, ?_⟩
  · intro h
    have hnl : ¬(10 * 1024 * 1024 < content.utf8ByteSize) := Nat.not_lt.mpr h
    simp [upload_to_bucket, hp, hb2, hnl, isOkE]
  · intro h
    simp [upload_to_bucket, hp, hb2, h]
  · intro h
    simp [upload_csv_to_table, hp, h]
  · intro h
    unfold upload_csv_to_table
    rw [hp]
    dsimp only
    rw [if_pos h]
    by_cases hc : (dictGetD sys.storage.tables pid []).contains tn = true
    · rw [if_pos hc]
      rfl
    · rw [if_neg hc]
      rfl

/-- C8 (corrected): for an existing project, with the credential configured, a
write request whose `brainstorm_id` is omitted or absent from the stored
brainstorms succeeds using the default context "Content for " + project name
(context_used false); when the id is a non-empty key of the stored
brainstorms, the context is built from the first two ideas of that brainstorm
(context_used true).  The credential proviso is forced by `C8_counterexample`: with no
key the call returns a configuration_error payload instead of succeeding. -/
theorem C8_theorem (sys : Sys) (pid : String) (fm : Option String) (bid : String)
    (proj : Project) (b : Brainstorm)
    (hp : sys.storage.get_project pid = some proj) :
    (write_content true sys pid fm none =
      .ok (.success
        ((renderWriteContent (fm.getD ("screenplay")) (("Content for ") ++ proj.name)).trim)
        (fm.getD ("screenplay"))
        (pySplitWs (renderWriteContent (fm.getD ("screenplay"))
          (("Content for ") ++ proj.name))).length
        false)) ∧
    (dictGet? sys.storage.brainstorms bid = none →
      write_content true sys pid fm (some bid) =
      .ok (.success
        ((renderWriteContent (fm.getD ("screenplay")) (("Content for ") ++ proj.name)).trim)
        (fm.getD ("screenplay"))
        (pySplitWs (renderWriteContent (fm.getD ("screenplay"))
          (("Content for ") ++ proj.name))).length
        false)) ∧
    (bid ≠ ("") → dictGet? sys.storage.brainstorms bid = some b →
      write_content true sys pid fm (some bid) =
      .ok (.success
        ((renderWriteContent (fm.getD ("screenplay"))
          (String.intercalate (" | ")
            [("Ideas: ") ++ String.intercalate (", ") (b.ideas.take 2)])).trim)
        (fm.getD ("screenplay"))
        (pySplitWs (renderWriteContent (fm.getD ("screenplay"))
          (String.intercalate (" | ")
            [("Ideas: ") ++ String.intercalate (", ") (b.ideas.take 2)]))).length
        true)) := by
  refine ⟨?_, ?_, ?_⟩
  · simp [write_content, hp]
  · intro h
    by_cases hb : (bid == ("")) = true
    · simp [write_content, hp, hb]
    · simp [write_content, hp, hb, h]
  · intro hne h
    have hb : (bid == ("")) = false := by simpa using hne
    simp [write_content, hp, hb, h]



/-- C5 (corrected): at every reachable state, all brainstorm, bucket and table
records reference the id of a currently existing project, and deleting a
project removes every dependent brainstorm, bucket and table entry; but the
in-memory upload records are NOT cascade-deleted (the uploads dict is
untouched by delete), so upload records can outlive their project — the
original claim including uploads is refuted by `C5_counterexample`. -/
theorem C5_theorem (sys sys2 : Sys) (pid msg : String)
    (h : Reachable sys)
    (hd : delete_project_endpoint sys pid = Except.ok (sys2, msg)) :
    refsValid sys.storage ∧ cascadeDeleted sys2.storage pid ∧
    sys2.storage.uploads = sys.storage.uploads := by
  refine ⟨(reachable_inv h).1, ?_, ?_⟩
  · unfold delete_project_endpoint at hd
    split at hd
    · exact absurd hd (by simp)
    · simp only [Except.ok.injEq, Prod.mk.injEq] at hd
      obtain ⟨hsys, _⟩ := hd
      subst hsys
      refine ⟨?_, ?_, ?_⟩
      · intro kv hkv
        have := (List.mem_filter.mp hkv).2
        simpa using this
      · intro kv hkv
        have := (List.mem_filter.mp hkv).2
        simpa using this
      · intro kv hkv
        have := (List.mem_filter.mp hkv).2
        simpa using this
  · unfold delete_project_endpoint at hd
    split at hd
    · exact absurd hd (by simp)
    · simp only [Except.ok.injEq, Prod.mk.injEq] at hd
      obtain ⟨hsys, _⟩ := hd
      subst hsys
      rfl

/-- C1 witness: concrete instantiations of both halves — creating "B" on a
one-project store and getting "project_2" returns it; deleting "project_1"
makes `get` report not-found; and the delete half also applies at the
collision state `sysBdel` (where the freshness proviso of the first half
fails), deleting "project_2" there still yields not-found. -/
theorem C1_witness :
    get_project_endpoint sysB projB.id = .ok projB ∧
    get_project_endpoint sysAdel ("project_1") = .error ⟨404, ("Project not found")⟩ ∧
    get_project_endpoint (stepOr sysBdel (delete_project_endpoint sysBdel ("project_2")))
      ("project_2") = .error ⟨404, ("Project not found")⟩ :=
  ⟨(C1_theorem sysA ("B") ("screenplay") none ("project_1")).1
      (by decide) sysB projB (by decide),
   (C1_theorem sysA ("B") ("screenplay") none ("project_1")).2
      sysAdel ("Project deleted") (by decide),
   (C1_theorem sysBdel ("B") ("screenplay") none ("project_2")).2
      (stepOr sysBdel (delete_project_endpoint sysBdel ("project_2")))
      ("Project deleted") (by decide)⟩

/-- C1 counterexample: create "A", create "B", delete "project_1", then create
"C".  The new project is allocated the id "project_2", which collides with the
surviving project "B"; `get "project_2"` returns the record of "B", not the
record `create` just returned. -/
theorem C1_counterexample :
    delete_project_endpoint sysB ("project_1") = Except.ok (sysBdel, ("Project deleted")) ∧
    create_project_endpoint sysBdel ("C") ("screenplay") none =
      Except.ok (sysCcoll,
        Project.mk ("project_2") ("C") ("screenplay") none ("2025-01-01T00:00:00Z")) ∧
    get_project_endpoint sysCcoll ("project_2") = .ok projB ∧
    projB ≠ Project.mk ("project_2") ("C") ("screenplay") none ("2025-01-01T00:00:00Z") := by
  decide

/-- C2 witness: a brainstorm call on the concrete one-project store with the
key configured succeeds. -/
theorem C2_witness :
    brainstormOk (brainstorm_project true sysA ("project_1") none none none) = true :=
  C2_theorem sysA ("project_1") none none none projA (by decide)

/-- C2 counterexample: at a state where "project_1" exists, a brainstorm call
with no OPENAI_API_KEY returns the structured `configuration_error` failure
payload (success false), not a Brainstorm record — contradicting the claim
that the operation succeeds regardless of the credential. -/
theorem C2_counterexample :
    sysA.storage.get_project ("project_1") = some projA ∧
    brainstorm_project false sysA ("project_1") none none none =
      .ok (sysA, .failure ("OpenAI API key not configured") ("configuration_error")) := by
  decide

/-- C3 witness: instantiation at the concrete one-project store with a payload
of exactly 10 MiB. -/
theorem C3_witness :
    ((aString (10 * 1024 * 1024)).utf8ByteSize ≤ 10 * 1024 * 1024 →
      isOkE (upload_to_bucket sysA ("project_1") ("research") ("data.csv")
        (aString (10 * 1024 * 1024))) = true) ∧
    (10 * 1024 * 1024 < (aString (10 * 1024 * 1024)).utf8ByteSize →
      upload_to_bucket sysA ("project_1") ("research") ("data.csv")
        (aString (10 * 1024 * 1024)) = .error ⟨413, ("File too large")⟩) ∧
    (strEndsWith ("data.csv") (".csv") = false →
      upload_csv_to_table sysA ("project_1") ("characters") ("data.csv")
        (aString (10 * 1024 * 1024)) = .error ⟨422, ("Only CSV files allowed")⟩) ∧
    (strEndsWith ("data.csv") (".csv") = true →
      isOkE (upload_csv_to_table sysA ("project_1") ("characters") ("data.csv")
        (aString (10 * 1024 * 1024))) = true) :=
  C3_theorem sysA ("project_1") ("research") ("characters") ("data.csv")
    (aString (10 * 1024 * 1024)) projA (by decide) (by decide)

/-- C3 counterexample: a table (CSV) upload of 10 MiB + 1 bytes succeeds —
`upload_csv_to_table` performs no size check, so the claim that the size
ceiling applies to both bucket and table uploads is false. -/
theorem C3_counterexample :
    (aString (10 * 1024 * 1024 + 1)).utf8ByteSize = 10 * 1024 * 1024 + 1 ∧
    isOkE (upload_csv_to_table sysA ("project_1") ("characters") ("big.csv")
      (aString (10 * 1024 * 1024 + 1))) = true := by
  refine ⟨aString_utf8ByteSize _, ?_⟩
  have hp : sysA.storage.get_project ("project_1") = some projA := by decide
  have hcsv : strEndsWith ("big.csv") (".csv") = true := by decide
  unfold upload_csv_to_table
  rw [hp]
  dsimp only
  rw [if_pos hcsv]
  by_cases hc : (dictGetD sysA.storage.tables ("project_1") []).contains ("characters") = true
  · rw [if_pos hc]
    rfl
  · rw [if_neg hc]
    rfl

/-- C4 witness: the three no-credential calls at the concrete one-project
store. -/
theorem C4_witness :
    brainstorm_project false sysA ("project_1") none none none =
      .ok (sysA, .failure ("OpenAI API key not configured") ("configuration_error")) ∧
    write_content false sysA ("project_1") none none =
      .ok (.failure ("OpenAI API key not configured") ("configuration_error")) ∧
    query_lightrag false none none =
      .failure ("OpenAI API key not configured") ("configuration_error") :=
  C4_theorem sysA ("project_1") none none none none none none none projA (by decide)

/-- C5 witness: instantiation at the reachable one-project store and its
deletion. -/
theorem C5_witness :
    refsValid sysA.storage ∧ cascadeDeleted sysAdel.storage ("project_1") ∧
    sysAdel.storage.uploads = sysA.storage.uploads :=
  C5_theorem sysA sysAdel ("project_1") ("Project deleted")
    (Reachable.create Reachable.init
      (by decide :
        create_project_endpoint Sys.init ("A") ("screenplay") none = Except.ok (sysA, projA)))
    (by decide)

/-- C5 counterexample: upload a file into bucket "research" of "project_1",
then delete the project; the upload record "file_1" still references
"project_1", which no longer exists — deletion does not cascade to uploads. -/
theorem C5_counterexample :
    upload_to_bucket sysA ("project_1") ("research") ("notes.txt") ("hello") =
      Except.ok (sysU, ⟨("file_1"), ("notes.txt"), 5, ("research"), ("uploaded")⟩) ∧
    delete_project_endpoint sysU ("project_1") = Except.ok (sysUdel, ("Project deleted")) ∧
    dictGet? sysUdel.storage.uploads ("file_1") =
      some ⟨("file_1"), ("notes.txt"), 5, ("project_1"), ("research"),
        ("projects/project_1/buckets/research/notes.txt")⟩ ∧
    sysUdel.storage.get_project ("project_1") = none := by
  decide

/-- C6 witness: creating with the invalid template "poetry" on a fresh store
is rejected with 422. -/
theorem C6_witness :
    errorStatus (create_project_endpoint Sys.init ("x") ("poetry") none) = some 422 ∧
    isOkE (create_project_endpoint Sys.init ("x") ("poetry") none) = false :=
  C6_theorem Sys.init ("x") ("poetry") none (Or.inl (by decide))

/-- C8 witness: instantiation at the concrete store holding "brainstorm_1",
with both the omitted-id and the existing-id cases. -/
theorem C8_witness :
    (write_content true sysAB ("project_1") none none =
      .ok (.success
        ((renderWriteContent ((none : Option String).getD ("screenplay"))
          (("Content for ") ++ projA.name)).trim)
        ((none : Option String).getD ("screenplay"))
        (pySplitWs (renderWriteContent ((none : Option String).getD ("screenplay"))
          (("Content for ") ++ projA.name))).length
        false)) ∧
    (dictGet? sysAB.storage.brainstorms ("brainstorm_1") = none →
      write_content true sysAB ("project_1") none (some ("brainstorm_1")) =
      .ok (.success
        ((renderWriteContent ((none : Option String).getD ("screenplay"))
          (("Content for ") ++ projA.name)).trim)
        ((none : Option String).getD ("screenplay"))
        (pySplitWs (renderWriteContent ((none : Option String).getD ("screenplay"))
          (("Content for ") ++ projA.name))).length
        false)) ∧
    (("brainstorm_1") ≠ ("") → dictGet? sysAB.storage.brainstorms ("brainstorm_1") = some brainB →
      write_content true sysAB ("project_1") none (some ("brainstorm_1")) =
      .ok (.success
        ((renderWriteContent ((none : Option String).getD ("screenplay"))
          (String.intercalate (" | ")
            [("Ideas: ") ++ String.intercalate (", ") (brainB.ideas.take 2)])).trim)
        ((none : Option String).getD ("screenplay"))
        (pySplitWs (renderWriteContent ((none : Option String).getD ("screenplay"))
          (String.intercalate (" | ")
            [("Ideas: ") ++ String.intercalate (", ") (brainB.ideas.take 2)]))).length
        true)) :=
  C8_theorem sysAB ("project_1") none ("brainstorm_1") projA brainB (by decide)

/-- C8 counterexample: at a state where "project_1" exists, a write call with
`brainstorm_id` omitted and no OPENAI_API_KEY returns the structured
configuration_error failure payload, not a success — so the claim as stated
(unconditional success) is false. -/
theorem C8_counterexample :
    sysA.storage.get_project ("project_1") = some projA ∧
    write_content false sysA ("project_1") none none =
      .ok (.failure ("OpenAI API key not configured") ("configuration_error")) := by
  decide

/-- C9 witness: the concrete upload of "notes.txt" into bucket "research". -/
theorem C9_witness :
    sysU.disk = sysA.disk ∧
    sysU.storage.projects = sysA.storage.projects ∧
    sysU.storage.brainstorms = sysA.storage.brainstorms ∧
    sysU.storage.buckets = sysA.storage.buckets ∧
    sysU.storage.tables = sysA.storage.tables ∧
    (loadStorage (saveDoc sysU.storage)).uploads = [] :=
  C9_theorem sysA sysU ("project_1") ("research") ("notes.txt") ("hello")
    ⟨("file_1"), ("notes.txt"), 5, ("research"), ("uploaded")⟩ (by decide)

/-- C10 witness: the concrete creation of project "A" on a fresh store. -/
theorem C10_witness :
    dictGet? sysA.storage.buckets projA.id =
      some [("research"), ("references"), ("inspiration")] ∧
    dictGet? sysA.storage.tables projA.id =
      some [("characters"), ("scenes"), ("themes")] :=
  C10_theorem Sys.init sysA ("A") ("screenplay") none projA (by decide)


end Miranda
